import Mathlib

/-!
Verification of the prysm metrology-file codec subsystem (`prysm/io.py`).

The definitions below are a shallow embedding of the codec layer:
  * the Zygo binary (.dat) phase/intensity codec (`read_zygo_dat`,
    `write_zygo_dat`),
  * the Code V grid-sag integer quantization codec (`write_codev_gridint`,
    `read_codev_gridint`),
  * the Trioptics measurement-type dispatch registry
    (`TRIOPTICS_SWITCHBOARD`, `read_any_trioptics_mht`),
  * the marker-slicing logic of the MTF-Lab v5 markup extractor
    (`read_trioptics_mtf_vs_field_mtflab_v5`).

Real (IEEE-754 double) arithmetic is modelled with exact rationals; NaN
cells are modelled with `Option ℚ` (`none` = NaN).  Machine-integer casts
carry explicit wraparound.  Fallible operations return `Except`.
-/

deriving instance DecidableEq for Except

namespace PrysmIO

/-! ### Shared numeric helpers -/

/-- Python `str.upper()` on the ASCII tokens these formats use. -/
def pyUpper (s : String) : String := String.mk (s.data.map Char.toUpper)

/-- Python `str.lower()` on the ASCII tokens these formats use. -/
def pyLower (s : String) : String := String.mk (s.data.map Char.toLower)

/-- numpy's `astype` from float to a signed integer type truncates toward
zero (C-style cast). -/
def truncQ (q : ℚ) : ℤ := if 0 ≤ q then ⌊q⌋ else ⌈q⌉

/-- Wraparound of `astype(np.int32)` on an out-of-range integer. -/
def toInt32 (z : ℤ) : ℤ := (z + 2 ^ 31) % 2 ^ 32 - 2 ^ 31

/-- `np.around` rounds to nearest, ties to even. -/
def rne (q : ℚ) : ℤ :=
  if q - ⌊q⌋ < 1 / 2 then ⌊q⌋
  else if 1 / 2 < q - ⌊q⌋ then ⌊q⌋ + 1
  else if Even ⌊q⌋ then ⌊q⌋ else ⌊q⌋ + 1

/-! ### Zygo binary (.dat) format — `io.py` lines 681-735 and 951-1018

`read_zygo_dat` reads the 834-byte header, the intensity block, then the
phase block; phase codes at or above the sentinel become NaN and the rest
are scaled to nanometers.  `write_zygo_dat` packs a header with
`scale_factor = 1`, `obliquity_factor = 1`, `phase_res = 1` and the
wavelength converted from µm to m, then truncates each phase value (nm)
to an int32 code.
-/

def ZYGO_INVALID_PHASE : ℤ := 2147483640

/-- `ZYGO_PHASE_RES_FACTORS = {0: 4096, 1: 32768, 2: 131072}`; any other
key is a lookup failure (`UnsupportedFormat`). -/
def ZYGO_PHASE_RES_FACTORS : ℕ → Option ℕ
  | 0 => some 4096
  | 1 => some 32768
  | 2 => some 131072
  | _ => none

/-- One cell of the phase decode in `read_zygo_dat`:
`phase[phase >= ZYGO_INVALID_PHASE] = np.nan` followed by
`phase *= (scale_factor * obliquity_factor * wavelength / factor) * 1e9`. -/
def zygoDecodeCell (s o wvlM : ℚ) (factor : ℕ) (code : ℤ) : Option ℚ :=
  if ZYGO_INVALID_PHASE ≤ code then none
  else some ((code : ℚ) * (s * o * wvlM / (factor : ℚ) * 1000000000))

/-- The phase-block decode of `read_zygo_dat`, parameterized by the header
fields it consumes.  `none` models the `KeyError`/`UnsupportedFormat`
raised when `phase_res` is outside the 3-entry factor table. -/
def read_zygo_dat_phase (s o wvlM : ℚ) (phase_res : ℕ) (codes : List ℤ) :
    Option (List (Option ℚ)) :=
  (ZYGO_PHASE_RES_FACTORS phase_res).map fun factor =>
    codes.map (zygoDecodeCell s o wvlM factor)

/-- One cell of the phase encode in `write_zygo_dat`:
`im = ((phase*1e-3*phase_res_fctr)/(wavelength)).astype(np.int32)` with
`phase_res_fctr = ZYGO_PHASE_RES_FACTORS[1] = 32768`, then
`im[mask] = 2147483640` for NaN cells. -/
def write_zygo_dat_cell (wavelength : ℚ) : Option ℚ → ℤ
  | none => 2147483640
  | some x => toInt32 (truncQ (x * (1 / 1000) * 32768 / wavelength))

def write_zygo_dat_codes (wavelength : ℚ) (phase : List (Option ℚ)) : List ℤ :=
  phase.map (write_zygo_dat_cell wavelength)

/-- Writing with `write_zygo_dat` then re-reading with `read_zygo_dat`.
The written header carries `scale_factor = 1`, `obliquity_factor = 1`,
`wavelength = wavelength/1e6` (µm → m) and `phase_res = 1`, which is what
the reader then consumes. -/
def zygo_roundtrip (wavelength : ℚ) (phase : List (Option ℚ)) :
    Option (List (Option ℚ)) :=
  read_zygo_dat_phase 1 1 (wavelength / 1000000) 1
    (write_zygo_dat_codes wavelength phase)

/-- A phase cell whose int32 code neither wraps nor reaches the NaN
sentinel; the round-trip claim quantifies over such cells ("values within
representable range"). -/
def ZygoRepresentable (wavelength : ℚ) : Option ℚ → Prop
  | none => True
  | some x =>
      -(2 ^ 31) ≤ truncQ (x * (1 / 1000) * 32768 / wavelength) ∧
      truncQ (x * (1 / 1000) * 32768 / wavelength) < 2147483640

/-! #### Intensity-block handling — `io.py` lines 711-727 -/

inductive ZygoIntensityError where
  /-- `ValueError: multi_intensity_action ... not among valid options of avg, first, last.` -/
  | invalidAction (action : String)
  deriving DecidableEq

/-- Elementwise sum of a stack of equally-shaped frames (numpy sum along
axis 0). -/
def sumFrames : List (List ℚ) → List ℚ
  | [] => []
  | f :: fs => fs.foldl (fun acc g => List.zipWith (· + ·) acc g) f

/-- `intensity.mean(axis=0)`. -/
def meanFrames (frames : List (List ℚ)) : List ℚ :=
  (sumFrames frames).map (· / (frames.length : ℚ))

/-- The multi-bucket reduction of `read_zygo_dat`:
`avg` → mean across buckets, `first` → `intensity[0]`,
`last` → `intensity[-1]`, anything else → `ValueError`.
The bucket stack is never empty (bucket count is at least 1), so the
default values of `headD`/`getLastD` are never consulted. -/
def reduce_multi_intensity (action : String) (frames : List (List ℚ)) :
    Except ZygoIntensityError (List ℚ) :=
  if pyLower action = "avg" then .ok (meanFrames frames)
  else if pyLower action = "first" then .ok (frames.headD [])
  else if pyLower action = "last" then .ok (frames.getLastD [])
  else .error (.invalidAction action)

/-- `if ib == 0: ib = 1` in `read_zygo_dat`. -/
def ac_n_buckets_effective (ib : ℕ) : ℕ := if ib = 0 then 1 else ib

/-- `ilen = iw * ih * ib`, the number of uint16 intensity samples read. -/
def zygo_intensity_len (iw ih ib : ℕ) : ℕ := iw * ih * ac_n_buckets_effective ib

/-- `reshape((ib, ih, iw))`: split the flat sample list into `ib` frames
of `ih*iw` samples each. -/
def chunkFrames : ℕ → ℕ → List ℚ → List (List ℚ)
  | 0, _, _ => []
  | b + 1, sz, xs => xs.take sz :: chunkFrames b sz (xs.drop sz)

/-- The intensity path of `read_zygo_dat`: reshape into buckets, then
reduce per the caller-selected action. -/
def read_zygo_dat_intensity (action : String) (iw ih ib : ℕ)
    (samples : List ℚ) : Except ZygoIntensityError (List ℚ) :=
  reduce_multi_intensity action
    (chunkFrames (ac_n_buckets_effective ib) (ih * iw) samples)

/-! ### Code V grid-sag INT writer — `io.py` lines 1234-1290

`write_codev_gridint` converts nm to µm, computes
`scale = min(-32767 / nanmin, 32767 / nanmax)`, rounds `array * scale`
to integers, then picks the largest `width ≤ 585` dividing the element
count and reshapes to `(width, size // width)` before `np.savetxt`.
-/

/-- `np.nanmin` on an all-finite array (claims about this codec are
restricted to all-finite input); 0 for the empty array, never consulted. -/
def nanmin : List ℚ → ℚ
  | [] => 0
  | x :: xs => xs.foldl min x

/-- `np.nanmax` on an all-finite array. -/
def nanmax : List ℚ → ℚ
  | [] => 0
  | x :: xs => xs.foldl max x

/-- `scale = min(scale_down, scale_up)` over the µm-valued array. -/
def gridint_scale (array_um : List ℚ) : ℚ :=
  min (-32767 / nanmin array_um) (32767 / nanmax array_um)

/-- The quantization pipeline of `write_codev_gridint` on an all-finite
array (`NDA_PIX` empty): nm → µm, then `np.around(array * scale)`.
The values are the mathematical rounded integers, before the wrapping
`astype(np.int16)` cast. -/
def write_codev_gridint_codes (array_nm : List ℚ) : List ℤ :=
  let array := array_nm.map (· / 1000)
  let scale := gridint_scale array
  array.map fun x => rne (x * scale)

/-- The row-width loop: `width = 585; while size % width != 0: width -= 1`. -/
def findWidth (N : ℕ) : ℕ → ℕ
  | 0 => 0
  | w + 1 => if N % (w + 1) = 0 then w + 1 else findWidth N w

def gridint_width (N : ℕ) : ℕ := findWidth N 585

/-- `array.ravel().reshape((width, array.size // width))` followed by
`np.savetxt`, which emits one line per leading-axis element: the body
has `width` rows of `size // width` values each. -/
def gridint_serialized_shape (N : ℕ) : ℕ × ℕ :=
  (gridint_width N, N / gridint_width N)

/-! ### Code V grid-sag INT header parser — `io.py` lines 1375-1421

`read_codev_gridint` splits the header line into whitespace tokens and
scans left to right, dispatching on the uppercased token; recognized
keywords consume their value tokens, `NNB` is a marker-only no-op, and
any other token is a fatal `ValueError` naming it.  After the scan,
`wvl` and `nda` (initialized to `None`) are checked; `m`/`n` are only
ever assigned inside the `GRD` branch, so the `if m is None` test hits
an `UnboundLocalError` whenever `GRD` was absent.
-/

/-- Value of a nonempty all-digit character list (`none` otherwise). -/
def digitsValAux : List Char → ℕ → Option ℕ
  | [], acc => some acc
  | c :: cs, acc =>
      if c.isDigit then digitsValAux cs (acc * 10 + (c.toNat - 48)) else none

def digitsVal? : List Char → Option ℕ
  | [] => none
  | cs => digitsValAux cs 0

/-- Split a token at its first `'.'`, if any. -/
def splitDot : List Char → List Char × Option (List Char)
  | [] => ([], none)
  | '.' :: rest => ([], some rest)
  | c :: rest =>
      let (a, b) := splitDot rest
      (c :: a, b)

/-- Split a token at its first `'e'`/`'E'`, if any. -/
def splitExp : List Char → List Char × Option (List Char)
  | [] => ([], none)
  | 'e' :: rest => ([], some rest)
  | 'E' :: rest => ([], some rest)
  | c :: rest =>
      let (a, b) := splitExp rest
      (c :: a, b)

/-- Unsigned decimal mantissa: `digits`, `digits.`, `.digits` or
`digits.digits`. -/
def parseMantissa? (cs : List Char) : Option ℚ :=
  match splitDot cs with
  | (ip, none) => (digitsVal? ip).map fun n => (n : ℚ)
  | ([], some []) => none
  | (ip, some fp) =>
      let i? := if ip.isEmpty then some 0 else digitsVal? ip
      let f? := if fp.isEmpty then some 0 else digitsVal? fp
      match i?, f? with
      | some i, some f => some ((i : ℚ) + (f : ℚ) / (10 ^ fp.length))
      | _, _ => none

def parseSignedInt? : List Char → Option ℤ
  | '-' :: rest => (digitsVal? rest).map fun n => -(n : ℤ)
  | '+' :: rest => (digitsVal? rest).map fun n => (n : ℤ)
  | cs => (digitsVal? cs).map fun n => (n : ℤ)

def applyExp (m : ℚ) (e : ℤ) : ℚ :=
  if 0 ≤ e then m * 10 ^ e.toNat else m / 10 ^ (-e).toNat

def parseUnsignedFloat? (cs : List Char) : Option ℚ :=
  match splitExp cs with
  | (mant, none) => parseMantissa? mant
  | (mant, some ex) =>
      match parseMantissa? mant, parseSignedInt? ex with
      | some m, some e => some (applyExp m e)
      | _, _ => none

/-- Python `float(token)` on the decimal/scientific tokens the format
uses; `none` models the `ValueError`. -/
def pyFloat? (s : String) : Option ℚ :=
  match s.toList with
  | '-' :: rest => (parseUnsignedFloat? rest).map (-·)
  | '+' :: rest => parseUnsignedFloat? rest
  | cs => parseUnsignedFloat? cs

/-- Python `int(token)`: optional sign and digits only. -/
def pyInt? (s : String) : Option ℤ := parseSignedInt? s.toList

inductive CvIntError where
  /-- `ValueError: parsing CV INT header: token ... not understood` -/
  | unknownToken (tok : String)
  /-- `ValueError` from `float()`/`int()` on a malformed value token -/
  | badNumericToken (tok : String)
  /-- `IndexError`: a keyword's value token is past the end of the header -/
  | indexError
  /-- `ValueError: CV INT header did not contain WVL` -/
  | missingWVL
  /-- `ValueError: CV INT (GRID) header did not contain NDA` -/
  | missingNDA
  /-- `ValueError: CV INT header did not contain GRD, only grid INT files are supported` -/
  | missingGRD
  /-- `UnboundLocalError`: `m` referenced before assignment -/
  | unboundLocalM
  deriving DecidableEq

/-- Local state of the header scan.  `wvl` and `nda` are initialized to
`None` in the source; `grd = none` models `m`/`n` never having been
assigned (the source has no `m, n = None, None` initializer). -/
structure CvHeaderState where
  wvl : Option ℚ := none
  ssz : Option ℚ := none
  nda : Option ℤ := none
  grd : Option (ℤ × ℤ) := none
  meaning : Option String := none
  deriving DecidableEq

/-- The scan position of the `while i < l` loop of `read_codev_gridint`:
either the loop head (dispatching on `params[i]`), or inside a branch
that still has to read the keyword's value token(s) at `params[i+1]`
(and `params[i+2]` for `GRD`, which carries the already-parsed `m`). -/
inductive CvExpect where
  | keyword
  | wvlValue
  | sszValue
  | ndaValue
  | grdValue1
  | grdValue2 (m : ℤ)
  deriving DecidableEq

/-- The token scan loop of `read_codev_gridint`.  The source advances an
index `i` by 1-3 per iteration; here each source branch `i += k` is `k`
single-token steps, with `CvExpect` recording which value token of the
current keyword is still owed.  Running out of tokens while a value is
owed is the source's `IndexError` from `params[i+1]`/`params[i+2]`. -/
def parse_gridint_tokens :
    List String → CvExpect → CvHeaderState → Except CvIntError CvHeaderState
  | [], .keyword, st => .ok st
  | [], _, _ => .error .indexError
  | t :: rest, .keyword, st =>
    if pyUpper t = "WVL" then parse_gridint_tokens rest .wvlValue st
    else if pyUpper t = "SSZ" then parse_gridint_tokens rest .sszValue st
    else if pyUpper t = "NDA" then parse_gridint_tokens rest .ndaValue st
    else if pyUpper t = "GRD" then parse_gridint_tokens rest .grdValue1 st
    else if pyUpper t = "SUR" then
      parse_gridint_tokens rest .keyword { st with meaning := some "surface error" }
    else if pyUpper t = "WFR" then
      parse_gridint_tokens rest .keyword { st with meaning := some "wavefront error" }
    else if pyUpper t = "NNB" then parse_gridint_tokens rest .keyword st
    else .error (.unknownToken t)
  | v :: rest, .wvlValue, st =>
    match pyFloat? v with
    | none => .error (.badNumericToken v)
    | some q => parse_gridint_tokens rest .keyword { st with wvl := some q }
  | v :: rest, .sszValue, st =>
    match pyFloat? v with
    | none => .error (.badNumericToken v)
    | some q => parse_gridint_tokens rest .keyword { st with ssz := some q }
  | v :: rest, .ndaValue, st =>
    match pyInt? v with
    | none => .error (.badNumericToken v)
    | some z => parse_gridint_tokens rest .keyword { st with nda := some z }
  | a :: rest, .grdValue1, st =>
    match pyInt? a with
    | none => .error (.badNumericToken a)
    | some m => parse_gridint_tokens rest (.grdValue2 m) st
  | b :: rest, .grdValue2 m, st =>
    match pyInt? b with
    | none => .error (.badNumericToken b)
    | some n => parse_gridint_tokens rest .keyword { st with grd := some (m, n) }

/-- The post-scan checks of `read_codev_gridint`: `wvl` and `nda` are
tested against `None`; testing `m` when `GRD` never ran raises
`UnboundLocalError` before the `missingGRD` message can be built, and
when `GRD` did run, `m` and `n` are ints (never `None`), so the
`missingGRD` branch is unreachable either way. -/
def read_codev_gridint_header (tokens : List String) :
    Except CvIntError CvHeaderState :=
  match parse_gridint_tokens tokens .keyword {} with
  | .error e => .error e
  | .ok st =>
    if st.wvl = none then .error .missingWVL
    else if st.nda = none then .error .missingNDA
    else
      match st.grd with
      | none => .error .unboundLocalM
      | some _ => .ok st

/-- The recognized keyword set of the header scan. -/
def CV_RECOGNIZED : List String := ["WVL", "SSZ", "NDA", "GRD", "SUR", "WFR", "NNB"]

/-- Well-formed headers: any interleaving of recognized keyword groups,
each keyword followed by parseable value tokens. -/
inductive GoodCvHeader : List String → Prop
  | nil : GoodCvHeader []
  | wvl {v rest} : (pyFloat? v).isSome → GoodCvHeader rest →
      GoodCvHeader ("WVL" :: v :: rest)
  | ssz {v rest} : (pyFloat? v).isSome → GoodCvHeader rest →
      GoodCvHeader ("SSZ" :: v :: rest)
  | nda {v rest} : (pyInt? v).isSome → GoodCvHeader rest →
      GoodCvHeader ("NDA" :: v :: rest)
  | grd {a b rest} : (pyInt? a).isSome → (pyInt? b).isSome → GoodCvHeader rest →
      GoodCvHeader ("GRD" :: a :: b :: rest)
  | sur {rest} : GoodCvHeader rest → GoodCvHeader ("SUR" :: rest)
  | wfr {rest} : GoodCvHeader rest → GoodCvHeader ("WFR" :: rest)
  | nnb {rest} : GoodCvHeader rest → GoodCvHeader ("NNB" :: rest)

/-! ### Trioptics dispatch registry — `io.py` lines 520-546

`TRIOPTICS_SWITCHBOARD` maps measurement-type labels either to an
extractor function or to the `NotImplemented` constant.
`read_any_trioptics_mht` does `TRIOPTICS_SWITCHBOARD[type_](data, ...)`:
an absent label raises `KeyError`; a label mapped to `NotImplemented`
raises `TypeError` when the constant is called.
-/

inductive TriopticsEntry where
  /-- reference to an extractor function -/
  | handler (extractor : String)
  /-- the `NotImplemented` constant -/
  | notImplementedMarker
  deriving DecidableEq

def TRIOPTICS_SWITCHBOARD : String → Option TriopticsEntry
  | "MTF vs. Field" => some (.handler "read_trioptics_mtf_vs_field")
  | "Distortion" => some .notImplementedMarker
  | "Axial Color" => some .notImplementedMarker
  | "Lateral Color" => some .notImplementedMarker
  | _ => none

/-- Possible outcomes of dispatching a label.  `unsupportedFormat` is the
dedicated `Unsupported` error the spec calls for; it is included so the
claim is statable, and the code never produces it. -/
inductive DispatchOutcome where
  | ran (extractor : String)
  /-- `TypeError: 'NotImplementedType' object is not callable` -/
  | typeErrorNotCallable
  /-- `KeyError` from `TRIOPTICS_SWITCHBOARD[type_]` -/
  | keyErrorLookup (label : String)
  /-- a dedicated `UnsupportedFormat` error -/
  | unsupportedFormat (label : String)
  deriving DecidableEq

/-- `read_any_trioptics_mht`, line 546: look the label up and call the
mapped value on the data. -/
def read_any_trioptics_mht_outcome (label : String) : DispatchOutcome :=
  match TRIOPTICS_SWITCHBOARD label with
  | none => .keyErrorLookup label
  | some (.handler f) => .ran f
  | some .notImplementedMarker => .typeErrorNotCallable

/-! ### MTF-Lab v5 markup extractor, marker slicing — `io.py` lines 205-226

`read_trioptics_mtf_vs_field_mtflab_v5` locates its regions with
`str.find` (which returns -1 when a marker is absent) and Python slices.
-/

/-- Python `str.find`: lowest index of the substring, or -1. -/
def subFindAux (sub : List Char) : List Char → ℕ → Option ℕ
  | [], i => if sub = [] then some i else none
  | c :: cs, i =>
      if sub.isPrefixOf (c :: cs) then some i else subFindAux sub cs (i + 1)

def pyFind (s sub : List Char) : ℤ :=
  match subFindAux sub s 0 with
  | some n => (n : ℤ)
  | none => -1

/-- Normalize one Python slice endpoint: negative indices count from the
end (clamped at 0), positive ones are clamped at the length. -/
def pySliceIdx (len : ℕ) (i : ℤ) : ℕ :=
  if i < 0 then ((len : ℤ) + i).toNat else min i.toNat len

/-- Python `s[a:b]`. -/
def pySlice (s : List Char) (a b : ℤ) : List Char :=
  (s.take (pySliceIdx s.length b)).drop (pySliceIdx s.length a)

/-- Python `s[:b]`. -/
def pySliceTo (s : List Char) (b : ℤ) : List Char := pySlice s 0 b

def CLOSE_CERT_TABLE : List Char := "<!-- close certificate table -->".toList
def BEGIN_TABLE_CAPTION : List Char := "<!--  begin table caption -->".toList
def END_TABLE_CAPTION : List Char := "<!-- end table caption -->".toList
def BEGIN_MEAS_DATA : List Char := "<!-- begin measurement data -->".toList
def END_MEAS_DATA : List Char := "<!-- end measurement data -->".toList

inductive MhtV5Error where
  /-- the fatal `MalformedInput` error the spec calls for; the source has
  no corresponding raise, so no code path produces it -/
  | malformedInput
  deriving DecidableEq

structure MhtV5Regions where
  /-- `file_contents[start+29:end]` around the table-caption markers -/
  captionBody : List Char
  /-- the measurement-data region of the remainder -/
  measurementBody : List Char
  deriving DecidableEq

/-- The region-location logic of `read_trioptics_mtf_vs_field_mtflab_v5`:
truncate at the close-certificate marker, slice out the caption table,
then slice out the measurement table from the remainder.  Every `find`
miss yields -1 and flows into the slicing; no path raises. -/
def mtflab_v5_locate_regions (fc0 : List Char) :
    Except MhtV5Error MhtV5Regions :=
  let e0 := pyFind fc0 CLOSE_CERT_TABLE
  let fc := pySliceTo fc0 e0
  let s1 := pyFind fc BEGIN_TABLE_CAPTION
  let e1 := pyFind fc END_TABLE_CAPTION
  let captionBody := pySlice fc (s1 + 29) e1
  let fc2 := pySlice fc e1 (fc.length : ℤ)
  let s2 := pyFind fc2 BEGIN_MEAS_DATA
  let e2 := pyFind fc2 END_MEAS_DATA
  let measurementBody := pySlice fc2 (s2 + 31) e2
  .ok { captionBody := captionBody, measurementBody := measurementBody }

/-! ## Claim theorems -/

/-! ### C2 — grid-sag scale factor and 16-bit range -/

theorem foldl_min_le_init (xs : List ℚ) (a : ℚ) : xs.foldl min a ≤ a := by
  induction xs generalizing a with
  | nil => simp
  | cons x xs ih =>
    rw [List.foldl_cons]
    exact le_trans (ih (min a x)) (min_le_left a x)

theorem init_le_foldl_max (xs : List ℚ) (a : ℚ) : a ≤ xs.foldl max a := by
  induction xs generalizing a with
  | nil => simp
  | cons x xs ih =>
    rw [List.foldl_cons]
    exact le_trans (le_max_left a x) (ih (max a x))

theorem foldl_min_le_mem {x : ℚ} :
    ∀ (xs : List ℚ), x ∈ xs → ∀ a, xs.foldl min a ≤ x
  | [], hx, _ => absurd hx (List.not_mem_nil x)
  | y :: ys, hx, a => by
    rw [List.foldl_cons]
    rcases List.mem_cons.mp hx with rfl | h
    · exact le_trans (foldl_min_le_init ys (min a x)) (min_le_right a x)
    · exact foldl_min_le_mem ys h (min a y)

theorem mem_le_foldl_max {x : ℚ} :
    ∀ (xs : List ℚ), x ∈ xs → ∀ a, x ≤ xs.foldl max a
  | [], hx, _ => absurd hx (List.not_mem_nil x)
  | y :: ys, hx, a => by
    rw [List.foldl_cons]
    rcases List.mem_cons.mp hx with rfl | h
    · exact le_trans (le_max_right a x) (init_le_foldl_max ys (max a x))
    · exact mem_le_foldl_max ys h (max a y)

theorem nanmin_le {x : ℚ} {xs : List ℚ} (hx : x ∈ xs) : nanmin xs ≤ x := by
  cases xs with
  | nil => cases hx
  | cons y ys =>
    show ys.foldl min y ≤ x
    rcases List.mem_cons.mp hx with rfl | h
    · exact foldl_min_le_init ys x
    · exact foldl_min_le_mem ys h y

theorem le_nanmax {x : ℚ} {xs : List ℚ} (hx : x ∈ xs) : x ≤ nanmax xs := by
  cases xs with
  | nil => cases hx
  | cons y ys =>
    show x ≤ ys.foldl max y
    rcases List.mem_cons.mp hx with rfl | h
    · exact init_le_foldl_max ys x
    · exact mem_le_foldl_max ys h y

theorem floor_le_rne (q : ℚ) : ⌊q⌋ ≤ rne q := by
  unfold rne
  split
  · exact le_refl _
  · split
    · omega
    · split <;> omega

theorem rne_le_ceil (q : ℚ) : rne q ≤ ⌈q⌉ := by
  unfold rne
  by_cases h1 : q - ⌊q⌋ < 1 / 2
  · rw [if_pos h1]
    exact Int.floor_le_ceil q
  · rw [if_neg h1]
    push_neg at h1
    have hlt : (⌊q⌋ : ℚ) < q := by linarith
    have hic : ⌊q⌋ + 1 ≤ ⌈q⌉ := by
      have h2 : (⌊q⌋ : ℚ) < (⌈q⌉ : ℚ) := lt_of_lt_of_le hlt (Int.le_ceil q)
      have h3 : ⌊q⌋ < ⌈q⌉ := by exact_mod_cast h2
      omega
    split
    · exact hic
    · split <;> omega

theorem rne_mem_Icc {q : ℚ} (h1 : -32767 ≤ q) (h2 : q ≤ 32767) :
    -32767 ≤ rne q ∧ rne q ≤ 32767 := by
  constructor
  · have hf : (-32767 : ℤ) ≤ ⌊q⌋ := by
      rw [Int.le_floor]
      exact_mod_cast h1
    exact le_trans hf (floor_le_rne q)
  · have hc : ⌈q⌉ ≤ (32767 : ℤ) := by
      rw [Int.ceil_le]
      exact_mod_cast h2
    exact le_trans (rne_le_ceil q) hc

/-- C2, counterexample: the all-finite, all-positive input
`[1000, 5000]` nm (µm values `[1, 5]`) yields
`scale = min(-32767/1, 32767/5) = -32767`, and the quantized value for
the 5 µm cell is -163835, far outside `[-32767, 32767]` — the symmetric
scale only avoids overflow when the data straddles zero. -/
theorem gridint_scale_overflow_cex :
    write_codev_gridint_codes [1000, 5000] = [-32767, -163835] ∧
    ¬(-32767 ≤ (-163835 : ℤ) ∧ (-163835 : ℤ) ≤ 32767) := by
  constructor
  · simp only [write_codev_gridint_codes, List.map_cons, List.map_nil,
      gridint_scale, nanmin, nanmax, List.foldl_cons, List.foldl_nil, rne]
    norm_num [min_def]
  · norm_num

/-- C2, amended: the encoder computes
`scale = min(-32767 / min_valid, 32767 / max_valid)` exactly as claimed,
and whenever the (all-finite) data straddles zero
(`min_valid < 0 < max_valid`) every quantized integer value lies in
`[-32767, 32767]`; the unrestricted claim fails on single-signed data
(see the counterexample). -/
theorem gridint_scale_no_overflow (array_nm : List ℚ)
    (hmn : nanmin (array_nm.map (· / 1000)) < 0)
    (hmx : 0 < nanmax (array_nm.map (· / 1000))) :
    gridint_scale (array_nm.map (· / 1000)) =
      min (-32767 / nanmin (array_nm.map (· / 1000)))
        (32767 / nanmax (array_nm.map (· / 1000))) ∧
    ∀ c ∈ write_codev_gridint_codes array_nm, -32767 ≤ c ∧ c ≤ 32767 := by
  refine ⟨rfl, ?_⟩
  intro c hc
  simp only [write_codev_gridint_codes] at hc
  obtain ⟨x, hx, rfl⟩ := List.mem_map.mp hc
  set l := array_nm.map (· / 1000) with hl
  have hxmn : nanmin l ≤ x := nanmin_le hx
  have hxmx : x ≤ nanmax l := le_nanmax hx
  have hsd : gridint_scale l ≤ -32767 / nanmin l := min_le_left _ _
  have hsu : gridint_scale l ≤ 32767 / nanmax l := min_le_right _ _
  have hsdpos : 0 < -32767 / nanmin l := div_pos_iff.mpr (Or.inr ⟨by norm_num, hmn⟩)
  have hsupos : 0 < 32767 / nanmax l := div_pos (by norm_num) hmx
  have hspos : 0 < gridint_scale l := lt_min hsdpos hsupos
  have hub : gridint_scale l * nanmax l ≤ 32767 := (le_div_iff₀ hmx).mp hsu
  have hlb : -32767 ≤ gridint_scale l * nanmin l := (le_div_iff_of_neg hmn).mp hsd
  have hq1 : x * gridint_scale l ≤ 32767 := by
    rcases le_or_lt 0 x with hx0 | hx0
    · calc x * gridint_scale l ≤ nanmax l * gridint_scale l :=
            mul_le_mul_of_nonneg_right hxmx hspos.le
        _ = gridint_scale l * nanmax l := mul_comm _ _
        _ ≤ 32767 := hub
    · have := mul_neg_of_neg_of_pos hx0 hspos
      linarith
  have hq2 : -32767 ≤ x * gridint_scale l := by
    rcases le_or_lt 0 x with hx0 | hx0
    · have := mul_nonneg hx0 hspos.le
      linarith
    · calc (-32767 : ℚ) ≤ gridint_scale l * nanmin l := hlb
        _ = nanmin l * gridint_scale l := mul_comm _ _
        _ ≤ x * gridint_scale l := mul_le_mul_of_nonneg_right hxmn hspos.le
  exact rne_mem_Icc hq2 hq1

theorem gridint_scale_no_overflow_witness :
    -32767 ≤ rne ((-1000 : ℚ) / 1000 *
        gridint_scale (([-1000, 3000] : List ℚ).map (· / 1000))) ∧
    rne ((-1000 : ℚ) / 1000 *
        gridint_scale (([-1000, 3000] : List ℚ).map (· / 1000))) ≤ 32767 :=
  (gridint_scale_no_overflow [-1000, 3000]
    (by norm_num [nanmin, min_def])
    (by norm_num [nanmax, max_def])).2 _
    (by
      simp only [write_codev_gridint_codes]
      exact List.mem_map_of_mem _ (List.mem_map_of_mem _ (by simp)))

/-! ### C4 — Trioptics dispatch registry -/

/-- C4, counterexample: the claim says a label present in the table but
marked not-implemented raises a distinguishable `Unsupported` error, "not
merely a failed lookup or call".  On the code, dispatching `"Distortion"`
calls the `NotImplemented` constant and dies with a `TypeError` (a failed
call), never a dedicated `Unsupported` error. -/
theorem trioptics_dispatch_unsupported_cex :
    read_any_trioptics_mht_outcome "Distortion" = DispatchOutcome.typeErrorNotCallable ∧
    DispatchOutcome.typeErrorNotCallable ≠ DispatchOutcome.unsupportedFormat "Distortion" := by
  decide

/-- C4, amended: dispatch has three structurally distinguishable outcomes
— a mapped label runs its extractor, a not-implemented label fails with
the `TypeError` raised by calling the `NotImplemented` marker (a failed
call, not a dedicated `Unsupported` error), and an absent label fails
with a `KeyError`-style lookup failure; no label ever produces a
dedicated `Unsupported` error. -/
theorem trioptics_dispatch_outcomes :
    read_any_trioptics_mht_outcome "MTF vs. Field" =
      DispatchOutcome.ran "read_trioptics_mtf_vs_field" ∧
    read_any_trioptics_mht_outcome "Distortion" = DispatchOutcome.typeErrorNotCallable ∧
    read_any_trioptics_mht_outcome "Axial Color" = DispatchOutcome.typeErrorNotCallable ∧
    read_any_trioptics_mht_outcome "Lateral Color" = DispatchOutcome.typeErrorNotCallable ∧
    (∀ label, TRIOPTICS_SWITCHBOARD label = none →
      read_any_trioptics_mht_outcome label = DispatchOutcome.keyErrorLookup label) ∧
    ∀ label, read_any_trioptics_mht_outcome label ≠ DispatchOutcome.unsupportedFormat label := by
  refine ⟨by decide, by decide, by decide, by decide, ?_, ?_⟩
  · intro label h
    simp [read_any_trioptics_mht_outcome, h]
  · intro label
    unfold read_any_trioptics_mht_outcome
    rcases TRIOPTICS_SWITCHBOARD label with _ | e
    · simp
    · cases e <;> simp

theorem trioptics_dispatch_outcomes_witness :
    read_any_trioptics_mht_outcome "Zernike" = DispatchOutcome.keyErrorLookup "Zernike" ∧
    read_any_trioptics_mht_outcome "Zernike" ≠ DispatchOutcome.unsupportedFormat "Zernike" :=
  ⟨trioptics_dispatch_outcomes.2.2.2.2.1 "Zernike" (by decide),
   trioptics_dispatch_outcomes.2.2.2.2.2 "Zernike"⟩

/-! ### C5 — missing WVL / NDA / GRD in the grid-sag header -/

/-- C5: missing `WVL` and missing `NDA` each fail with their own named
error, as the claim states; but a header lacking `GRD` (here with `WVL`
and `NDA` both present) dies with `UnboundLocalError` from evaluating the
never-assigned `m` in `if m is None`, not with the named
`'CV INT header did not contain GRD'` error — the source initializes
`wvl, nda = None, None` but never initializes `m, n`, so its own
`missingGRD` check is unreachable. -/
theorem gridint_missing_token_checks :
    read_codev_gridint_header ["GRD", "2", "2", "SUR", "SSZ", "2", "NDA", "-32768"] =
      Except.error CvIntError.missingWVL ∧
    read_codev_gridint_header ["GRD", "2", "2", "SUR", "WVL", "1.0", "SSZ", "2"] =
      Except.error CvIntError.missingNDA ∧
    read_codev_gridint_header ["WVL", "1.0", "SSZ", "2", "NDA", "-32768"] =
      Except.error CvIntError.unboundLocalM ∧
    CvIntError.unboundLocalM ≠ CvIntError.missingGRD := by
  decide

/-! ### C6 — missing bounding marker in the v5 markup extractor -/

/-- A complete MTF-Lab v5 skeleton except for the closing
`<!-- close certificate table -->` marker. -/
def MHT_V5_NO_CLOSE_DOC : List Char :=
  ("<!--  begin table caption -->CAP<!-- end table caption -->" ++
   "<!-- begin measurement data -->MEAS<!-- end measurement data -->Z").toList

set_option maxRecDepth 100000 in
/-- C6, counterexample: the claim says a report missing the closing
table-comment marker raises a fatal `MalformedInput` and constructs no
partial record.  On the code, `find` returns -1, the document is silently
truncated by one character, and region extraction proceeds to produce a
record; no `MalformedInput` is raised. -/
theorem mtflab_v5_missing_marker_cex :
    pyFind MHT_V5_NO_CLOSE_DOC CLOSE_CERT_TABLE = -1 ∧
    mtflab_v5_locate_regions MHT_V5_NO_CLOSE_DOC =
      Except.ok { captionBody := "CAP".toList, measurementBody := "MEAS".toList } ∧
    mtflab_v5_locate_regions MHT_V5_NO_CLOSE_DOC ≠ Except.error MhtV5Error.malformedInput := by
  refine ⟨by decide, by decide, ?_⟩
  intro h
  simp [mtflab_v5_locate_regions] at h

/-- C6, amended: when the closing table-comment marker is absent,
`find` returns -1, the `[:end]` slice truncates the document by exactly
its final character, and the extractor proceeds without raising — the
marker-location phase succeeds on every input (`MalformedInput` does not
exist in the code). -/
theorem mtflab_v5_missing_marker_truncates (fc : List Char)
    (h : pyFind fc CLOSE_CERT_TABLE = -1) :
    pySliceTo fc (pyFind fc CLOSE_CERT_TABLE) = fc.dropLast ∧
    ∃ r, mtflab_v5_locate_regions fc = Except.ok r := by
  refine ⟨?_, ⟨_, rfl⟩⟩
  rw [h]
  have h1 : pySliceIdx fc.length 0 = 0 := by simp [pySliceIdx]
  have h2 : pySliceIdx fc.length (-1) = fc.length - 1 := by
    simp only [pySliceIdx, if_pos (show (-1 : ℤ) < 0 by norm_num)]
    omega
  simp [pySliceTo, pySlice, h1, h2, List.dropLast_eq_take]

theorem mtflab_v5_missing_marker_truncates_witness :
    pySliceTo "abc".toList (pyFind "abc".toList CLOSE_CERT_TABLE) = "abc".toList.dropLast ∧
    ∃ r, mtflab_v5_locate_regions "abc".toList = Except.ok r :=
  mtflab_v5_missing_marker_truncates "abc".toList (by decide)

/-! ### C7 — grid-sag row-width selection -/

set_option maxRecDepth 8000 in
/-- C7: the chosen `width` is indeed the largest value ≤ 585 dividing the
element count, but the claim that the body is serialized "as rows of
width w" fails: `reshape((width, size // width))` uses `width` as the
number of rows, so `np.savetxt` emits `width` lines of `size // width`
values each.  For a 586×586 array (N = 343396), `width = 293` yet every
emitted row carries 1172 values — more than the 585-value cap the
format's 4096-character line limit allows, contradicting the code's own
comment ("can get 585 values per line"). -/
theorem gridint_row_width_eval :
    gridint_width 343396 = 293 ∧
    (∀ w < 586, 343396 % w = 0 → w ≤ 293) ∧
    gridint_serialized_shape 343396 = (293, 1172) ∧
    ¬(1172 ≤ 585) := by
  decide

/-! ### C1 — Zygo .dat write/read round trip -/

theorem trunc_error (r : ℚ) : |r - (truncQ r : ℚ)| < 1 := by
  unfold truncQ
  by_cases h : 0 ≤ r
  · rw [if_pos h, abs_of_nonneg (sub_nonneg.mpr (Int.floor_le r))]
    have := Int.lt_floor_add_one r
    linarith
  · rw [if_neg h, abs_of_nonpos (sub_nonpos.mpr (Int.le_ceil r))]
    have := Int.ceil_lt_add_one r
    linarith

theorem trunc_scale_error (v : ℚ) {q : ℚ} (hq : 0 < q) :
    |v - (truncQ (v / q) : ℚ) * q| < q := by
  have h := trunc_error (v / q)
  have hv : v - (truncQ (v / q) : ℚ) * q = (v / q - truncQ (v / q)) * q := by
    rw [sub_mul, div_mul_cancel₀ _ hq.ne']
  rw [hv, abs_mul, abs_of_pos hq]
  simpa using mul_lt_mul_of_pos_right h hq

theorem toInt32_eq_self {z : ℤ} (h1 : -(2 ^ 31) ≤ z) (h2 : z < 2 ^ 31) :
    toInt32 z = z := by
  unfold toInt32
  omega

/-- One cell through `write_zygo_dat` then `read_zygo_dat`: NaN maps to
the sentinel and back to NaN; a representable finite value comes back
finite within one quantization step `wavelength * 1000 / 32768` nm. -/
theorem zygo_roundtrip_cell (wavelength : ℚ) (hw : 0 < wavelength)
    (cell : Option ℚ) (hrep : ZygoRepresentable wavelength cell) :
    (cell = none ∧
      zygoDecodeCell 1 1 (wavelength / 1000000) 32768
        (write_zygo_dat_cell wavelength cell) = none) ∨
    ∃ v d, cell = some v ∧
      zygoDecodeCell 1 1 (wavelength / 1000000) 32768
        (write_zygo_dat_cell wavelength cell) = some d ∧
      |v - d| < wavelength * 1000 / 32768 := by
  cases cell with
  | none =>
    exact Or.inl ⟨rfl, by simp [write_zygo_dat_cell, zygoDecodeCell, ZYGO_INVALID_PHASE]⟩
  | some v =>
    right
    obtain ⟨h1, h2⟩ := hrep
    have hid : write_zygo_dat_cell wavelength (some v) =
        truncQ (v * (1 / 1000) * 32768 / wavelength) := by
      simp only [write_zygo_dat_cell]
      exact toInt32_eq_self h1 (lt_trans h2 (by norm_num))
    have hdec : zygoDecodeCell 1 1 (wavelength / 1000000) 32768
        (truncQ (v * (1 / 1000) * 32768 / wavelength)) =
        some ((truncQ (v * (1 / 1000) * 32768 / wavelength) : ℚ) *
          (1 * 1 * (wavelength / 1000000) / ((32768 : ℕ) : ℚ) * 1000000000)) := by

      simp only [zygoDecodeCell, ZYGO_INVALID_PHASE, if_neg (not_le.mpr h2)]
    have hq : (0 : ℚ) < wavelength * 1000 / 32768 := by positivity
    have hwne : wavelength ≠ 0 := hw.ne'
    have harg : v * (1 / 1000) * 32768 / wavelength = v / (wavelength * 1000 / 32768) := by
      rw [eq_div_iff hq.ne']
      field_simp
      ring
    refine ⟨v, _, rfl, by rw [hid]; exact hdec, ?_⟩
    have hfac : (1 : ℚ) * 1 * (wavelength / 1000000) / ((32768 : ℕ) : ℚ) * 1000000000 =
        wavelength * 1000 / 32768 := by
      push_cast
      ring
    rw [hfac, harg]
    exact trunc_scale_error v hq

/-- C1, counterexample: at the fixed wavelength 0.6328 µm a finite cell
of 0.01 nm encodes to code 0 (truncation) and decodes back to 0 nm; the
0.01 nm round-trip error vastly exceeds the claimed quantization step of
`wavelength_um / phase_resolution_factor` *nanometers*
(0.6328/32768 ≈ 1.93e-5 nm).  The true step is that quantity in
micrometers, i.e. `wavelength_um * 1000 / 32768` nm. -/
theorem zygo_roundtrip_quantization_cex :
    zygo_roundtrip (6328 / 10000) [some (1 / 100)] = some [some 0] ∧
    ¬(|(1 / 100 : ℚ) - 0| ≤ (6328 / 10000) / 32768) := by
  constructor
  · simp only [zygo_roundtrip, read_zygo_dat_phase, ZYGO_PHASE_RES_FACTORS,
      write_zygo_dat_codes, write_zygo_dat_cell, List.map_cons, List.map_nil,
      Option.map_some, zygoDecodeCell, ZYGO_INVALID_PHASE, toInt32, truncQ]
    norm_num
  · rw [sub_zero, abs_of_pos (by norm_num)]
    norm_num

/-- C1, amended: writing a phase map with `write_zygo_dat` and re-reading
it with `read_zygo_dat` reproduces NaN exactly at the NaN cells, and
reproduces every representable finite cell to within one quantization
step — `wavelength_um * 1000 / phase_resolution_factor` nanometers
(equivalently `wavelength_um / phase_resolution_factor` micrometers) at
the writer's fixed 15-bit resolution (factor 32768). -/
theorem zygo_roundtrip_spec (wavelength : ℚ) (hw : 0 < wavelength)
    (phase : List (Option ℚ))
    (hrep : ∀ cell ∈ phase, ZygoRepresentable wavelength cell) :
    ∃ out, zygo_roundtrip wavelength phase = some out ∧
      List.Forall₂ (fun a b => (a = none ∧ b = none) ∨
        ∃ v d, a = some v ∧ b = some d ∧ |v - d| < wavelength * 1000 / 32768)
        phase out := by
  refine ⟨(write_zygo_dat_codes wavelength phase).map
      (zygoDecodeCell 1 1 (wavelength / 1000000) 32768), rfl, ?_⟩
  induction phase with
  | nil => simp [write_zygo_dat_codes]
  | cons c cs ih =>
    simp only [write_zygo_dat_codes, List.map_cons]
    refine List.Forall₂.cons ?_ ?_
    · exact zygo_roundtrip_cell wavelength hw c (hrep c (List.mem_cons_self c cs))
    · exact ih fun cell hc => hrep cell (List.mem_cons_of_mem c hc)

theorem zygo_roundtrip_spec_witness :
    ∃ out, zygo_roundtrip (6328 / 10000) [some 1, none] = some out ∧
      List.Forall₂ (fun a b => (a = none ∧ b = none) ∨
        ∃ v d, a = some v ∧ b = some d ∧ |v - d| < (6328 / 10000) * 1000 / 32768)
        [some 1, none] out :=
  zygo_roundtrip_spec (6328 / 10000) (by norm_num) [some 1, none] (by
    intro cell hc
    simp only [List.mem_cons, List.not_mem_nil, or_false] at hc
    rcases hc with rfl | rfl
    · constructor <;> norm_num [truncQ]
    · trivial)

/-! ### C3 — Zygo phase decode formula and resolution table -/

/-- C3: every raw code at or above 2147483640 decodes to NaN; every
remaining code decodes to
`code * scale_factor * obliquity_factor * wavelength / factor * 1e9`
nanometers with the factor drawn from the 3-entry table
`{0: 4096, 1: 32768, 2: 131072}`; and the concrete scenario — header with
`phase_res = 1`, wavelength 632.8 nm (6.328e-7 m), unit scale/obliquity,
phase codes `[0, 32768, 2147483640, -32768]` — decodes to
`[0, 632.8, NaN, -632.8]` nm. -/
theorem zygo_phase_decode_formula :
    (ZYGO_PHASE_RES_FACTORS 0 = some 4096 ∧ ZYGO_PHASE_RES_FACTORS 1 = some 32768 ∧
      ZYGO_PHASE_RES_FACTORS 2 = some 131072) ∧
    (∀ (s o w : ℚ) (f : ℕ) (code : ℤ), 2147483640 ≤ code →
      zygoDecodeCell s o w f code = none) ∧
    (∀ (s o w : ℚ) (f : ℕ) (code : ℤ), code < 2147483640 →
      zygoDecodeCell s o w f code =
        some ((code : ℚ) * s * o * w / (f : ℚ) * 1000000000)) ∧
    read_zygo_dat_phase 1 1 (6328 / 10 ^ 10) 1 [0, 32768, 2147483640, -32768] =
      some [some 0, some (6328 / 10), none, some (-(6328 / 10))] := by
  refine ⟨⟨rfl, rfl, rfl⟩, ?_, ?_, ?_⟩
  · intro s o w f code h
    simp only [zygoDecodeCell, ZYGO_INVALID_PHASE, if_pos h]
  · intro s o w f code h
    simp only [zygoDecodeCell, ZYGO_INVALID_PHASE, if_neg (not_le.mpr h)]
    exact congrArg some (by ring)
  · simp only [read_zygo_dat_phase, ZYGO_PHASE_RES_FACTORS, Option.map_some,
      List.map_cons, List.map_nil, zygoDecodeCell, ZYGO_INVALID_PHASE]
    norm_num

theorem zygo_phase_decode_formula_witness :
    zygoDecodeCell 1 1 1 4096 2147483641 = none ∧
    zygoDecodeCell 1 1 1 4096 5 =
      some (((5 : ℤ) : ℚ) * 1 * 1 * 1 / ((4096 : ℕ) : ℚ) * 1000000000) :=
  ⟨zygo_phase_decode_formula.2.1 1 1 1 4096 2147483641 (by norm_num),
   zygo_phase_decode_formula.2.2.1 1 1 1 4096 5 (by norm_num)⟩

/-! ### C9 — multi-bucket intensity reduction policies -/

/-- C9: the intensity stack is reduced exactly per the caller-selected
policy — `avg` takes the elementwise mean across buckets, `first` takes
`intensity[0]`, `last` takes `intensity[-1]` — and any policy whose
lowercasing is outside that three-element set fails with the
`InvalidArgument`-style `ValueError` naming the offending policy. -/
theorem zygo_multi_intensity_policies :
    (∀ frames, reduce_multi_intensity "avg" frames = Except.ok (meanFrames frames)) ∧
    (∀ frames, reduce_multi_intensity "first" frames = Except.ok (frames.headD [])) ∧
    (∀ frames, reduce_multi_intensity "last" frames = Except.ok (frames.getLastD [])) ∧
    ∀ action frames, pyLower action ∉ (["avg", "first", "last"] : List String) →
      reduce_multi_intensity action frames =
        Except.error (ZygoIntensityError.invalidAction action) := by
  refine ⟨?_, ?_, ?_, ?_⟩
  · intro frames; simp +decide [reduce_multi_intensity]
  · intro frames; simp +decide [reduce_multi_intensity]
  · intro frames; simp +decide [reduce_multi_intensity]
  · intro action frames h
    simp only [List.mem_cons, List.not_mem_nil, or_false, not_or] at h
    simp [reduce_multi_intensity, h.1, h.2.1, h.2.2]

theorem zygo_multi_intensity_policies_witness :
    reduce_multi_intensity "median" [] =
      Except.error (ZygoIntensityError.invalidAction "median") :=
  zygo_multi_intensity_policies.2.2.2 "median" [] (by decide)

/-! ### C10 — zero acquired buckets are treated as one -/

/-- C10: a header with `ac_n_buckets = 0` is read as one bucket — the
intensity block is `ac_width * ac_height` samples, and all three
reduction policies return that single frame unchanged (the mean of one
frame is itself). -/
theorem zygo_zero_buckets (iw ih : ℕ) (samples : List ℚ)
    (hlen : samples.length = ih * iw) :
    zygo_intensity_len iw ih 0 = iw * ih ∧
    read_zygo_dat_intensity "avg" iw ih 0 samples = Except.ok samples ∧
    read_zygo_dat_intensity "first" iw ih 0 samples = Except.ok samples ∧
    read_zygo_dat_intensity "last" iw ih 0 samples = Except.ok samples := by
  have e1 : ac_n_buckets_effective 0 = 1 := rfl
  have hchunk : chunkFrames (ac_n_buckets_effective 0) (ih * iw) samples = [samples] := by
    simp [chunkFrames, e1, List.take_of_length_le hlen.le]
  have hmean : meanFrames [samples] = samples := by
    simp [meanFrames, sumFrames]
  refine ⟨by simp [zygo_intensity_len, ac_n_buckets_effective, Nat.mul_comm], ?_, ?_, ?_⟩ <;>
    simp +decide [read_zygo_dat_intensity, reduce_multi_intensity, hchunk, hmean]

theorem zygo_zero_buckets_witness :
    zygo_intensity_len 2 1 0 = 2 * 1 ∧
    read_zygo_dat_intensity "avg" 2 1 0 [3, 4] = Except.ok [3, 4] ∧
    read_zygo_dat_intensity "first" 2 1 0 [3, 4] = Except.ok [3, 4] ∧
    read_zygo_dat_intensity "last" 2 1 0 [3, 4] = Except.ok [3, 4] :=
  zygo_zero_buckets 2 1 [3, 4] (by decide)

/-! ### C8 — grid-sag header token parser -/

theorem parse_kw_wvl (rest : List String) (st : CvHeaderState) :
    parse_gridint_tokens ("WVL" :: rest) .keyword st =
      parse_gridint_tokens rest .wvlValue st := by
  rw [parse_gridint_tokens]
  simp +decide

theorem parse_kw_ssz (rest : List String) (st : CvHeaderState) :
    parse_gridint_tokens ("SSZ" :: rest) .keyword st =
      parse_gridint_tokens rest .sszValue st := by
  rw [parse_gridint_tokens]
  simp +decide

theorem parse_kw_nda (rest : List String) (st : CvHeaderState) :
    parse_gridint_tokens ("NDA" :: rest) .keyword st =
      parse_gridint_tokens rest .ndaValue st := by
  rw [parse_gridint_tokens]
  simp +decide

theorem parse_kw_grd (rest : List String) (st : CvHeaderState) :
    parse_gridint_tokens ("GRD" :: rest) .keyword st =
      parse_gridint_tokens rest .grdValue1 st := by
  rw [parse_gridint_tokens]
  simp +decide

theorem parse_kw_sur (rest : List String) (st : CvHeaderState) :
    parse_gridint_tokens ("SUR" :: rest) .keyword st =
      parse_gridint_tokens rest .keyword { st with meaning := some "surface error" } := by
  rw [parse_gridint_tokens]
  simp +decide

theorem parse_kw_wfr (rest : List String) (st : CvHeaderState) :
    parse_gridint_tokens ("WFR" :: rest) .keyword st =
      parse_gridint_tokens rest .keyword { st with meaning := some "wavefront error" } := by
  rw [parse_gridint_tokens]
  simp +decide

theorem parse_kw_nnb (rest : List String) (st : CvHeaderState) :
    parse_gridint_tokens ("NNB" :: rest) .keyword st =
      parse_gridint_tokens rest .keyword st := by
  rw [parse_gridint_tokens]
  simp +decide

theorem parse_kw_unknown (t : String) (rest : List String) (st : CvHeaderState)
    (htok : pyUpper t ∉ CV_RECOGNIZED) :
    parse_gridint_tokens (t :: rest) .keyword st =
      Except.error (CvIntError.unknownToken t) := by
  have h7 : ¬pyUpper t = "WVL" ∧ ¬pyUpper t = "SSZ" ∧ ¬pyUpper t = "NDA" ∧
      ¬pyUpper t = "GRD" ∧ ¬pyUpper t = "SUR" ∧ ¬pyUpper t = "WFR" ∧
      ¬pyUpper t = "NNB" := by
    simpa [CV_RECOGNIZED, not_or] using htok
  rw [parse_gridint_tokens]
  simp [h7.1, h7.2.1, h7.2.2.1, h7.2.2.2.1, h7.2.2.2.2.1, h7.2.2.2.2.2.1,
    h7.2.2.2.2.2.2]

theorem parse_val_wvl (v : String) (rest : List String) (st : CvHeaderState) (q : ℚ)
    (hq : pyFloat? v = some q) :
    parse_gridint_tokens (v :: rest) .wvlValue st =
      parse_gridint_tokens rest .keyword { st with wvl := some q } := by
  rw [parse_gridint_tokens, hq]

theorem parse_val_ssz (v : String) (rest : List String) (st : CvHeaderState) (q : ℚ)
    (hq : pyFloat? v = some q) :
    parse_gridint_tokens (v :: rest) .sszValue st =
      parse_gridint_tokens rest .keyword { st with ssz := some q } := by
  rw [parse_gridint_tokens, hq]

theorem parse_val_nda (v : String) (rest : List String) (st : CvHeaderState) (z : ℤ)
    (hz : pyInt? v = some z) :
    parse_gridint_tokens (v :: rest) .ndaValue st =
      parse_gridint_tokens rest .keyword { st with nda := some z } := by
  rw [parse_gridint_tokens, hz]

theorem parse_val_grd1 (a : String) (rest : List String) (st : CvHeaderState) (m : ℤ)
    (hm : pyInt? a = some m) :
    parse_gridint_tokens (a :: rest) .grdValue1 st =
      parse_gridint_tokens rest (.grdValue2 m) st := by
  rw [parse_gridint_tokens, hm]

theorem parse_val_grd2 (b : String) (rest : List String) (st : CvHeaderState) (m n : ℤ)
    (hn : pyInt? b = some n) :
    parse_gridint_tokens (b :: rest) (.grdValue2 m) st =
      parse_gridint_tokens rest .keyword { st with grd := some (m, n) } := by
  rw [parse_gridint_tokens, hn]

theorem parse_gridint_tokens_good {ts : List String} (h : GoodCvHeader ts) :
    ∀ st, ∃ st', parse_gridint_tokens ts .keyword st = Except.ok st' := by
  induction h with
  | nil => exact fun st => ⟨st, rfl⟩
  | @wvl v rest hv _ ih =>
    intro st
    obtain ⟨q, hq⟩ := Option.isSome_iff_exists.mp hv
    rw [parse_kw_wvl, parse_val_wvl v rest st q hq]
    exact ih _
  | @ssz v rest hv _ ih =>
    intro st
    obtain ⟨q, hq⟩ := Option.isSome_iff_exists.mp hv
    rw [parse_kw_ssz, parse_val_ssz v rest st q hq]
    exact ih _
  | @nda v rest hv _ ih =>
    intro st
    obtain ⟨z, hz⟩ := Option.isSome_iff_exists.mp hv
    rw [parse_kw_nda, parse_val_nda v rest st z hz]
    exact ih _
  | @grd a b rest ha hb _ ih =>
    intro st
    obtain ⟨m, hm⟩ := Option.isSome_iff_exists.mp ha
    obtain ⟨n, hn⟩ := Option.isSome_iff_exists.mp hb
    rw [parse_kw_grd, parse_val_grd1 a (b :: rest) st m hm,
      parse_val_grd2 b rest st m n hn]
    exact ih _
  | @sur rest _ ih =>
    intro st
    rw [parse_kw_sur]
    exact ih _
  | @wfr rest _ ih =>
    intro st
    rw [parse_kw_wfr]
    exact ih _
  | @nnb rest _ ih =>
    intro st
    rw [parse_kw_nnb]
    exact ih _

theorem parse_gridint_tokens_unknown {pre : List String} (hpre : GoodCvHeader pre)
    (tok : String) (suf : List String) (htok : pyUpper tok ∉ CV_RECOGNIZED) :
    ∀ st, parse_gridint_tokens (pre ++ tok :: suf) .keyword st =
      Except.error (CvIntError.unknownToken tok) := by
  induction hpre with
  | nil =>
    intro st
    rw [List.nil_append]
    exact parse_kw_unknown tok suf st htok
  | @wvl v rest hv _ ih =>
    intro st
    obtain ⟨q, hq⟩ := Option.isSome_iff_exists.mp hv
    rw [List.cons_append, List.cons_append, parse_kw_wvl,
      parse_val_wvl v (rest ++ tok :: suf) st q hq]
    exact ih _
  | @ssz v rest hv _ ih =>
    intro st
    obtain ⟨q, hq⟩ := Option.isSome_iff_exists.mp hv
    rw [List.cons_append, List.cons_append, parse_kw_ssz,
      parse_val_ssz v (rest ++ tok :: suf) st q hq]
    exact ih _
  | @nda v rest hv _ ih =>
    intro st
    obtain ⟨z, hz⟩ := Option.isSome_iff_exists.mp hv
    rw [List.cons_append, List.cons_append, parse_kw_nda,
      parse_val_nda v (rest ++ tok :: suf) st z hz]
    exact ih _
  | @grd a b rest ha hb _ ih =>
    intro st
    obtain ⟨m, hm⟩ := Option.isSome_iff_exists.mp ha
    obtain ⟨n, hn⟩ := Option.isSome_iff_exists.mp hb
    rw [List.cons_append, List.cons_append, List.cons_append, parse_kw_grd,
      parse_val_grd1 a (b :: (rest ++ tok :: suf)) st m hm,
      parse_val_grd2 b (rest ++ tok :: suf) st m n hn]
    exact ih _
  | @sur rest _ ih =>
    intro st
    rw [List.cons_append, parse_kw_sur]
    exact ih _
  | @wfr rest _ ih =>
    intro st
    rw [List.cons_append, parse_kw_wfr]
    exact ih _
  | @nnb rest _ ih =>
    intro st
    rw [List.cons_append, parse_kw_nnb]
    exact ih _

/-- C8: the token scan dispatches left to right on uppercased token
identity; a header made only of recognized keyword groups (with
parseable value tokens) scans without error from any start state, and
inserting a single unrecognized token at any group boundary fails with
the `ParseError` naming exactly that token, regardless of its position. -/
theorem gridint_token_parser_spec :
    (∀ ts, GoodCvHeader ts →
      ∀ st, ∃ st', parse_gridint_tokens ts .keyword st = Except.ok st') ∧
    ∀ pre tok suf, GoodCvHeader pre → pyUpper tok ∉ CV_RECOGNIZED →
      ∀ st, parse_gridint_tokens (pre ++ tok :: suf) .keyword st =
        Except.error (CvIntError.unknownToken tok) :=
  ⟨fun _ h => parse_gridint_tokens_good h,
   fun _ tok suf h htok => parse_gridint_tokens_unknown h tok suf htok⟩

theorem gridint_token_parser_spec_witness :
    (∃ st', parse_gridint_tokens ["GRD", "2", "2", "SUR", "WVL", "1.0"] .keyword {} =
      Except.ok st') ∧
    parse_gridint_tokens ["GRD", "2", "2", "SUR", "XYZ", "WVL", "1.0"] .keyword {} =
      Except.error (CvIntError.unknownToken "XYZ") :=
  ⟨gridint_token_parser_spec.1 _
      (GoodCvHeader.grd (by decide) (by decide)
        (GoodCvHeader.sur (GoodCvHeader.wvl (by decide) GoodCvHeader.nil))) {},
   gridint_token_parser_spec.2 ["GRD", "2", "2", "SUR"] "XYZ" ["WVL", "1.0"]
      (GoodCvHeader.grd (by decide) (by decide) (GoodCvHeader.sur GoodCvHeader.nil))
      (by decide) {}⟩

end PrysmIO
